import Mathlib

/-!
Verification of the message-driven command router in `src/main.py` of the
personal-assistant Discord bot backend.

The development shallowly embeds the routing pipeline of `main.py`:
intent classification (`is_greeting`, `match_intent` over `INTENT_PATTERNS`),
LLM parameter extraction (`extract_params`), the conversational fallback
(`query_llm_chat`), the Android command forwarder (`send_to_android`) and the
two FastAPI entry points (`create_task` for POST /task, `raw_command` for
POST /command).

External effects are modelled as oracles carried in an environment record:
the llama.cpp completion service is a function from the request record to
either a transport failure or a response payload, `json.loads` is a function
from strings to an optional parsed object, and each authenticated POST of the
forwarder is a function from (timeout, url, payload) to either a failure
reason or a device response.  Python exceptions become `Except` values.
Texts are modelled at ASCII granularity (Python's `re` word/space classes are
Unicode-aware; every concrete input used below is ASCII).
-/

namespace PA

/-- JSON scalar values, enough to model parameter maps and device responses. -/
inductive JsonVal where
  | str (s : String)
  | num (n : Int)
  | boolean (b : Bool)
  | null
  deriving DecidableEq, Repr

/-- A parsed JSON object (Python dict), as an insertion-ordered assoc list. -/
abbrev ParamMap := List (String × JsonVal)

/-- A device-endpoint response body (also an arbitrary JSON object). -/
abbrev DeviceResp := List (String × JsonVal)

/-- One element of a `choices` array of a completion response. -/
structure CompletionChoice where
  text : Option String
  deriving DecidableEq, Repr

/-- A completion-service response body.  `content`, `response` and `choices`
model the three upstream response shapes named in the spec; `main.py` only
ever reads `content` and `response` (lines 204-208 and 258). -/
structure CompletionPayload where
  content : Option String
  response : Option String
  choices : List CompletionChoice
  deriving DecidableEq, Repr

/-- The JSON body POSTed to the completion service (`main.py` lines 191-200
and 246-255).  The fractional sampling parameters are exact decimals in the
source (0.1, 0.7, 0.9, 1.1) and are carried here in tenths. -/
structure CompletionRequest where
  prompt : String
  n_predict : Nat
  temperatureTenths : Nat
  top_k : Nat
  top_pTenths : Nat
  repeat_penaltyTenths : Nat
  cache_prompt : Bool
  stop : List String
  deriving DecidableEq, Repr

/-- The backtick character (used by Python `raw.strip("`")` in `extract_params`). -/
def btickC : Char := Char.ofNat 96

/-- Opening brace character. -/
def lbraceC : Char := Char.ofNat 123

/-- Closing brace character. -/
def rbraceC : Char := Char.ofNat 125

/-- ASCII whitespace, as stripped by Python `str.strip()` and matched by `\s`. -/
def pySpace (c : Char) : Bool :=
  c == ' ' || c == '\t' || c == '\n' || c == '\r' || c == '\x0b' || c == '\x0c'

/-- Strip all leading and trailing characters satisfying `p` (Python `str.strip(chars)`). -/
def pyStripChars (p : Char → Bool) (s : String) : String :=
  String.mk (((s.toList.dropWhile p).reverse.dropWhile p).reverse)

/-- Python `str.strip()` with no argument: strip whitespace at both ends. -/
def pyStrip (s : String) : String := pyStripChars pySpace s

/-- Python `str.rstrip("/")`: drop trailing slashes. -/
def pyRstripSlash (s : String) : String :=
  String.mk ((s.toList.reverse.dropWhile (· == '/')).reverse)

/-- Python truthiness-based `a or b` on an optional string field: `None` and
`""` fall through to the default. -/
def pyOrStr (o : Option String) (d : String) : String :=
  match o with
  | some s => if s = "" then d else s
  | none => d

/-- Python regex `\w` (ASCII part): letters, digits, underscore. -/
def isWordChar (c : Char) : Bool := c.isAlphanum || c == '_'

/-- First-match lookup in an assoc list, i.e. Python `dict.get(key)` (`None`
when the key is absent). -/
def pyDictGet {β : Type} : List (String × β) → String → Option β
  | [], _ => none
  | (k, v) :: rest, key => if key = k then some v else pyDictGet rest key

/-- Python `dict.get(key, default)`. -/
def pyDictGetD {β : Type} (l : List (String × β)) (key : String) (d : β) : β :=
  (pyDictGet l key).getD d

/-- Python `d[key] = v` on an insertion-ordered dict: update in place when the
key exists, append otherwise. -/
def dictSet (d : List (String × JsonVal)) (k : String) (v : JsonVal) : List (String × JsonVal) :=
  if (d.map Prod.fst).contains k then
    d.map (fun p => if p.1 = k then (k, v) else p)
  else
    d ++ [(k, v)]

/-- Lowercased character list of a string; all pattern matching in `main.py`
is case-insensitive (`re.I`), which we model by lowercasing the text once and
writing the patterns in lowercase. -/
def lowerChars (s : String) : List Char := s.toList.map Char.toLower

/-- One literal element of a regex alternative: a fixed character or the
wildcard `.` (any character except newline).  The only wildcard in
`INTENT_PATTERNS` is the `.` of `what.s new`. -/
inductive RTok where
  | lit (c : Char)
  | anyc

/-- Match a token (one regex alternative) against a prefix of `s`. -/
def rtokMatch : List RTok → List Char → Bool
  | [], _ => true
  | _ :: _, [] => false
  | RTok.lit c :: ts, x :: xs => x == c && rtokMatch ts xs
  | RTok.anyc :: ts, x :: xs => x != '\n' && rtokMatch ts xs

/-- A purely literal token. -/
def rlit (s : String) : List RTok := s.toList.map RTok.lit

/-- The alternative `what.s new` of the get_notifications pattern. -/
def whatDotSNew : List RTok := rlit "what" ++ [RTok.anyc] ++ rlit "s new"

/-- `\b tok \b` anchored at position `i` of `s`.  Every alternative in
`INTENT_PATTERNS` begins and ends with a word character, so the two word
boundaries reduce to: the previous character (if any) is not a word character,
and the character right after the token (if any) is not a word character. -/
def tokenAtBounded (tok : List RTok) (s : List Char) (i : Nat) : Bool :=
  rtokMatch tok (s.drop i)
  && (i == 0 || !isWordChar (s.getD (i - 1) ' '))
  && !isWordChar (s.getD (i + tok.length) ' ')

/-- Does any alternative match with word boundaries at position `i`? -/
def altAt (alts : List (List RTok)) (s : List Char) (i : Nat) : Bool :=
  alts.any (fun t => tokenAtBounded t s i)

/-- `re.search` of `\b(alt|...)\b`: some position carries a bounded alternative. -/
def searchAlts (alts : List (List RTok)) (s : List Char) : Bool :=
  (List.range (s.length + 1)).any (altAt alts s)

/-- The gap `.{0,40}` starting at position `j`: `k` characters all present and
none of them a newline (`.` does not match `\n` without `re.S`). -/
def gapOk (s : List Char) (j k : Nat) : Bool :=
  decide (j + k ≤ s.length) && ((s.drop j).take k).all (fun c => c != '\n')

/-- `re.search` of `\b(A|...)\b.{0,40}\b(B|...)\b` (the two summarize-style
patterns of `INTENT_PATTERNS`). -/
def searchGap (alts1 alts2 : List (List RTok)) (s : List Char) : Bool :=
  (List.range (s.length + 1)).any fun i =>
    alts1.any fun t =>
      tokenAtBounded t s i &&
      (List.range 41).any fun k =>
        gapOk s (i + t.length) k && altAt alts2 s (i + t.length + k)

/-- A `\b\w+\b` match starting at position `j`: word boundary on the left and
a word character at `j` (the maximal word run from `j` then ends at a boundary). -/
def wordRunAt (s : List Char) (j : Nat) : Bool :=
  decide (j < s.length) && isWordChar (s.getD j ' ')
  && (j == 0 || !isWordChar (s.getD (j - 1) ' '))

/-- `re.search` of `\b(A|...)\b.{0,40}\b\w+\b` (the send_sms pattern). -/
def searchGapWord (alts1 : List (List RTok)) (s : List Char) : Bool :=
  (List.range (s.length + 1)).any fun i =>
    alts1.any fun t =>
      tokenAtBounded t s i &&
      (List.range 41).any fun k =>
        gapOk s (i + t.length) k && wordRunAt s (i + t.length + k)

/-- Pattern for read_email_summary (`main.py` lines 34-36). -/
def patReadEmailSummary (m : String) : Bool :=
  searchGap
    [rlit "read", rlit "summarise", rlit "summarize", rlit "show"]
    [rlit "email", rlit "emails", rlit "inbox", rlit "gmail", rlit "outlook"]
    (lowerChars m)

/-- Pattern for read_text_messages (lines 38-40). -/
def patReadTextMessages (m : String) : Bool :=
  searchGap
    [rlit "read", rlit "summarise", rlit "summarize", rlit "show"]
    [rlit "text", rlit "texts", rlit "sms", rlit "messages"]
    (lowerChars m)

/-- Pattern for add_calendar_reminder (lines 42-44). -/
def patAddCalendarReminder (m : String) : Bool :=
  searchAlts
    [rlit "calendar", rlit "reminder", rlit "remind me", rlit "schedule",
     rlit "event", rlit "appointment"]
    (lowerChars m)

/-- Pattern for add_note (lines 46-48). -/
def patAddNote (m : String) : Bool :=
  searchAlts
    [rlit "note", rlit "notes", rlit "notepad", rlit "memo", rlit "jot",
     rlit "write this down"]
    (lowerChars m)

/-- Pattern for send_sms (lines 50-52). -/
def patSendSms (m : String) : Bool :=
  searchGapWord
    [rlit "text", rlit "sms", rlit "tell", rlit "say to", rlit "msg", rlit "message"]
    (lowerChars m)

/-- Pattern for send_email (lines 54-56). -/
def patSendEmail (m : String) : Bool :=
  searchAlts [rlit "email", rlit "e-mail", rlit "mail"] (lowerChars m)

/-- Pattern for set_alarm (lines 58-60). -/
def patSetAlarm (m : String) : Bool :=
  searchAlts [rlit "alarm", rlit "wake", rlit "remind", rlit "reminder"] (lowerChars m)

/-- Pattern for play_spotify (lines 62-64). -/
def patPlaySpotify (m : String) : Bool :=
  searchAlts
    [rlit "play", rlit "music", rlit "song", rlit "spotify", rlit "listen",
     rlit "queue", rlit "shuffle", rlit "track"]
    (lowerChars m)

/-- Pattern for get_notifications (lines 66-68). -/
def patGetNotifications (m : String) : Bool :=
  searchAlts
    [rlit "notification", rlit "notif", rlit "alert", rlit "update", rlit "miss",
     rlit "inbox", rlit "read", rlit "check", rlit "catch up", rlit "show me",
     rlit "what did", rlit "anything new", whatDotSNew]
    (lowerChars m)

/-- The ordered intent rule list (`INTENT_PATTERNS`, lines 32-69); order is
significant, more specific patterns first. -/
def INTENT_PATTERNS : List ((String → Bool) × String) :=
  [(patReadEmailSummary, "read_email_summary"),
   (patReadTextMessages, "read_text_messages"),
   (patAddCalendarReminder, "add_calendar_reminder"),
   (patAddNote, "add_note"),
   (patSendSms, "send_sms"),
   (patSendEmail, "send_email"),
   (patSetAlarm, "set_alarm"),
   (patPlaySpotify, "play_spotify"),
   (patGetNotifications, "get_notifications")]

/-- Fast regex-based intent detection (`match_intent`, lines 149-154): the
action of the first rule whose pattern matches anywhere in the message, else
`none`. -/
def match_intent (message : String) : Option String :=
  (INTENT_PATTERNS.find? (fun r => r.1 message)).map (fun r => r.2)

/-- The greeting alternatives of `is_greeting` (line 159). -/
def GREETING_TOKENS : List String :=
  ["hi", "hello", "hey", "sup", "what can you do", "help", "capabilities",
   "commands", "menu", "start"]

/-- `is_greeting` (lines 157-162): `re.match` of
`^\s*(hi|hello|hey|sup|what can you do|help|capabilities|commands|menu|start)\b`
case-insensitively, i.e. after optional leading whitespace the text starts with
one of the tokens followed by a word boundary. -/
def is_greeting (message : String) : Bool :=
  let t := (lowerChars message).dropWhile pySpace
  GREETING_TOKENS.any fun tok =>
    let tl := tok.toList
    tl.isPrefixOf t && !isWordChar (t.getD tl.length ' ')

/-- Is `c` in one of the pictograph blocks removed by `strip_emojis`
(lines 165-171): U+1F300-U+1FAFF, U+2700-U+27BF, U+1F1E6-U+1F1FF, U+2600-U+26FF. -/
def isEmojiChar (c : Char) : Bool :=
  let n := c.toNat
  (0x1F300 ≤ n && n ≤ 0x1FAFF) || (0x2700 ≤ n && n ≤ 0x27BF)
  || (0x1F1E6 ≤ n && n ≤ 0x1F1FF) || (0x2600 ≤ n && n ≤ 0x26FF)

/-- `strip_emojis` (lines 165-171): delete the pictograph blocks, then
`str.strip()`. -/
def strip_emojis (text : String) : String :=
  pyStrip (String.mk (text.toList.filter (fun c => !isEmojiChar c)))

/-- `PARAM_PROMPTS` (lines 72-124): per-action extraction template, `none`
value for get_notifications (no params needed).  Brace characters of the
source templates are written here with hexadecimal escapes. -/
def PARAM_PROMPTS : List (String × Option String) :=
  [("read_text_messages", some
      "Extract filters for reading/summarizing text messages.\nReply with ONLY this JSON, no extra text:\n\x7b\x7b\"scope\":\"<all_unread|count|contact>\",\"count\":<number|null>,\"contact\":\"<name or null>\"\x7d\x7d\n\nUser input: \"\x7bmessage\x7d\""),
   ("read_email_summary", some
      "Extract filters for reading/summarizing unread emails.\nProvider must be gmail or outlook.\nReply with ONLY this JSON, no extra text:\n\x7b\x7b\"provider\":\"<gmail|outlook>\",\"count\":<number>\x7d\x7d\n\nUser input: \"\x7bmessage\x7d\""),
   ("add_calendar_reminder", some
      "Extract the reminder title and time/date from the user input.\nReply with ONLY this JSON, no extra text:\n\x7b\x7b\"title\": \"<reminder title>\", \"time\": \"<time or date/time>\"\x7d\x7d\n\nUser input: \"\x7bmessage\x7d\""),
   ("add_note", some
      "Extract the note content from the user input.\nReply with ONLY this JSON, no extra text:\n\x7b\x7b\"content\": \"<note text>\"\x7d\x7d\n\nUser input: \"\x7bmessage\x7d\""),
   ("send_sms", some
      "Extract the recipient name and message from the user input.\nReply with ONLY this JSON, no extra text:\n\x7b\x7b\"to\": \"<name>\", \"message\": \"<text>\"\x7d\x7d\n\nUser input: \"\x7bmessage\x7d\""),
   ("send_email", some
      "Extract the email provider, recipient, subject, and message from the user input.\nProvider must be gmail or outlook.\nReply with ONLY this JSON, no extra text:\n\x7b\x7b\"provider\":\"<gmail|outlook>\", \"to\": \"<name or email>\", \"subject\": \"<subject>\", \"message\": \"<text>\"\x7d\x7d\n\nUser input: \"\x7bmessage\x7d\""),
   ("set_alarm", some
      "Extract the time from the user input.\nReply with ONLY this JSON, no extra text:\n\x7b\x7b\"time\": \"<HH:MM AM/PM>\"\x7d\x7d\n\nUser input: \"\x7bmessage\x7d\""),
   ("play_spotify", some
      "Extract the song, artist, or playlist from the user input.\nReply with ONLY this JSON, no extra text:\n\x7b\x7b\"query\": \"<song or artist>\"\x7d\x7d\n\nUser input: \"\x7bmessage\x7d\""),
   ("get_notifications", none)]

/-- `PARAM_PROMPTS.get(action)` as used on line 181: `none` both for a
missing key and for the explicit `None` entry of get_notifications. -/
def promptTemplateFor (action : String) : Option String :=
  (pyDictGet PARAM_PROMPTS action).join

/-- The literal text `"message}"` that follows `{` in a `{message}` placeholder. -/
def msgKey : List Char := "message\x7d".toList

/-- Fuel-driven worker for Python `str.format(message=m)` on the fixed
templates: `{{` and `}}` are escapes for single braces and `{message}` is
replaced by `m`.  Each step consumes at least one character, so fuel
`length + 1` never runs out.  (On a stray unescaped brace Python would raise;
the fixed templates above contain none, and this worker just copies it.) -/
def pyFormatAux (m : List Char) : Nat → List Char → List Char
  | 0, _ => []
  | _ + 1, [] => []
  | fuel + 1, c :: rest =>
    if c = lbraceC then
      match rest with
      | c2 :: r2 =>
        if c2 = lbraceC then lbraceC :: pyFormatAux m fuel r2
        else if msgKey.isPrefixOf rest then m ++ pyFormatAux m fuel (rest.drop msgKey.length)
        else c :: pyFormatAux m fuel rest
      | [] => [c]
    else if c = rbraceC then
      match rest with
      | c2 :: r2 => if c2 = rbraceC then rbraceC :: pyFormatAux m fuel r2
                    else c :: pyFormatAux m fuel rest
      | [] => [c]
    else c :: pyFormatAux m fuel rest

/-- `prompt_template.format(message=message)` (line 187). -/
def pyFormat (tmpl m : String) : String :=
  String.mk (pyFormatAux m.toList (tmpl.toList.length + 1) tmpl.toList)

/-- The raw generated text taken from a completion response: Python
`(payload.get("content") or payload.get("response") or "").strip()`
(lines 204-208 and 258).  The `choices` field is never consulted. -/
def completionRaw (p : CompletionPayload) : String :=
  pyStrip (pyOrStr p.content (pyOrStr p.response ""))

/-- Markdown-fence stripping of the raw completion text (lines 213-215):
strip surrounding backticks, strip whitespace, drop a leading `json` tag. -/
def fenceStripped (raw : String) : String :=
  let clean := pyStrip (pyStripChars (fun ch => ch == btickC) raw)
  if "json".isPrefixOf clean then pyStrip (clean.drop 4) else clean

/-- The completion request POSTed by `extract_params` (lines 191-200). -/
def extractRequest (prompt : String) : CompletionRequest :=
  { prompt := prompt, n_predict := 60, temperatureTenths := 1, top_k := 10,
    top_pTenths := 9, repeat_penaltyTenths := 11, cache_prompt := true,
    stop := ["### User:", "\n###", "\n\n", "```"] }

/-- The prompt wrapper of `extract_params` (line 187). -/
def extractPrompt (tmpl message : String) : String :=
  "### User:\n" ++ pyFormat tmpl message ++ "\n\n### Assistant:\n"

/-- The persona prompt of `query_llm_chat` (lines 232-243). -/
def chatPrompt (message : String) : String :=
  "### System:\nYou are Sepher, AI Assistant ni Charles, a personal phone assistant. Your personality is cool, funky, and confident while staying helpful and clear. You can set alarms, send texts, play Spotify, send emails, read notifications, add calendar reminders, add notes, summarize unread text messages, and summarize unread emails. If asked who you are or what you do, introduce yourself briefly. If asked something you cannot do, say so politely and suggest what you can do instead. Keep replies short and friendly. Do not use emojis in any response.\n\n### User:\n"
  ++ message ++ "\n\n### Assistant:\n"

/-- The completion request POSTed by `query_llm_chat` (lines 246-255). -/
def chatRequest (message : String) : CompletionRequest :=
  { prompt := chatPrompt message, n_predict := 120, temperatureTenths := 7,
    top_k := 40, top_pTenths := 9, repeat_penaltyTenths := 11,
    cache_prompt := true, stop := ["### User:", "\n###"] }

/-- The payload POSTed to a device endpoint: `{"action": ..., "params": ...}`
(lines 274-277). -/
structure Payload where
  action : String
  params : ParamMap
  deriving DecidableEq, Repr

/-- A command built by the orchestrator: `{"action": ..., "params": ...}`. -/
structure Command where
  action : String
  params : ParamMap
  deriving DecidableEq, Repr

/-- The timeout of the single `httpx.AsyncClient(timeout=20)` that serves
every candidate request of `send_to_android` (line 289). -/
def ANDROID_CLIENT_TIMEOUT : Nat := 20

/-- Environment of external effects of the Android forwarder. -/
structure AndroidEnv where
  /-- `ANDROID_LOCAL_URL` (LAN candidate base address). -/
  localUrl : String
  /-- `ANDROID_URL` (fallback candidate base address). -/
  remoteUrl : String
  /-- Outcome of one authenticated `client.post(url, json=payload, auth=ANDROID_AUTH)`
  followed by `raise_for_status` and `.json()`, given the client timeout, the
  url and the payload: either the parsed response body or the exception text. -/
  attempt : Nat → String → Payload → Except String DeviceResp

/-- `action_aliases` (lines 265-270). -/
def action_aliases : List (String × String) :=
  [("add_note", "create_note"),
   ("add_calendar_reminder", "add_calendar"),
   ("read_text_messages", "summarize_sms"),
   ("read_email_summary", "summarize_email")]

/-- The payload forwarded for a command (lines 272-277): the action passed
through `action_aliases` (unchanged when absent), the params untouched. -/
def androidPayload (command : Command) : Payload :=
  { action := pyDictGetD action_aliases command.action command.action,
    params := command.params }

/-- `build_command_url` (lines 279-280). -/
def build_command_url (base_url : String) : String :=
  pyRstripSlash base_url ++ "/command"

/-- The candidate list (lines 282-286): LAN first when configured, then the
remote URL when configured and distinct from the LAN one. -/
def candidateUrls (env : AndroidEnv) : List (String × String) :=
  (if pyStrip env.localUrl = "" then []
   else [("local", build_command_url env.localUrl)]) ++
  (if pyStrip env.remoteUrl = "" then []
   else if pyStrip env.remoteUrl = pyStrip env.localUrl then []
   else [("remote", build_command_url env.remoteUrl)])

/-- The candidate loop (lines 288-305): try each candidate in order with the
shared client; on success annotate the body with `_forwarded_via` and
`_forwarded_url`; on failure remember (only) the latest failure text and move
on; when all fail, raise with the last recorded failure. -/
def tryUrls (env : AndroidEnv) (payload : Payload) :
    List (String × String) → Option String → Except String DeviceResp
  | [], last_error => Except.error (last_error.getD "No Android URL configured")
  | (mode, url) :: rest, _last_error =>
    match env.attempt ANDROID_CLIENT_TIMEOUT url payload with
    | Except.ok data =>
        Except.ok (dictSet (dictSet data "_forwarded_via" (JsonVal.str mode))
          "_forwarded_url" (JsonVal.str url))
    | Except.error e =>
        tryUrls env payload rest (some (mode ++ ":" ++ url ++ " -> " ++ e))

/-- `send_to_android` (lines 263-305). -/
def send_to_android (env : AndroidEnv) (command : Command) : Except String DeviceResp :=
  tryUrls env (androidPayload command) (candidateUrls env) none

/-- Environment of external effects of the whole service. -/
structure Env where
  /-- `AUTHORIZED_DISCORD_IDS`, the allow-list parsed from the environment. -/
  authorizedIds : List String
  /-- Outcome of one `client.post(LLAMA_URL, json=body)` followed by
  `raise_for_status` and `.json()`: either the parsed payload or a transport
  failure (unreachable, timeout, non-2xx, undecodable body). -/
  llama : CompletionRequest → Except Unit CompletionPayload
  /-- `json.loads` restricted to object results: `none` when the string is
  not valid JSON. -/
  jsonLoads : String → Option ParamMap
  /-- The device-forwarder environment. -/
  android : AndroidEnv

/-- `extract_params` (lines 175-224): look up the template (empty params when
absent), query the completion service, fence-strip the raw text and JSON-parse
it; every failure is caught and becomes an empty mapping. -/
def extract_params (env : Env) (action message : String) : ParamMap :=
  match promptTemplateFor action with
  | none => []
  | some tmpl =>
    match env.llama (extractRequest (extractPrompt tmpl message)) with
    | Except.error _ => []
    | Except.ok payload =>
      match env.jsonLoads (fenceStripped (completionRaw payload)) with
      | none => []
      | some d => d

/-- `query_llm_chat` (lines 227-259): persona-prompt completion request; a
transport failure propagates to the caller; a success is emoji-stripped. -/
def query_llm_chat (env : Env) (message : String) : Except Unit String :=
  match env.llama (chatRequest message) with
  | Except.error e => Except.error e
  | Except.ok payload => Except.ok (strip_emojis (completionRaw payload))

/-- `CAPABILITIES_TEXT` (lines 126-139). -/
def CAPABILITIES_TEXT : String :=
  "Hi! I\x27m Sepher. Here\x27s what I can do:\n1) **set_alarm** — Set an alarm (e.g. \"set alarm for 7am\")\n2) **send_sms** — Send a text (e.g. \"text Stefanie I love you\")\n3) **play_spotify** — Play music (e.g. \"play lo-fi\")\n4) **send_email** — Send email with provider (e.g. \"send gmail email to john@example.com about meeting\")\n5) **get_notifications** — Read your notifications (e.g. \"read my notifications\")\n6) **add_calendar_reminder** — Add a calendar reminder (e.g. \"remind me tomorrow at 9am to call mom\")\n7) **add_note** — Add a new note (e.g. \"note: buy milk and eggs\")\n8) **read_text_messages** — Summarize unread texts (e.g. \"summarize unread texts\" or \"read 5 texts from Sam\")\n9) **read_email_summary** — Summarize unread emails (e.g. \"read first 10 unread gmail emails\")\n\nJust tell me what you need!"

/-- The static apology of the conversational fallback (line 359). -/
def APOLOGY : String :=
  "Sorry, I didn\x27t understand that. Try saying \x27help\x27 to see what I can do."

/-- An HTTP error signal (`HTTPException(status_code, detail)`). -/
structure HttpError where
  status : Nat
  detail : String
  deriving DecidableEq, Repr

/-- A JSON response body of the two entry points; absent keys are `none`
(the greeting/chat replies carry no params, the /command reply carries no
action, and so on). -/
structure TaskResponse where
  ok : Bool
  action : Option String := none
  reply : Option String := none
  params : Option ParamMap := none
  android_response : Option DeviceResp := none
  deriving DecidableEq, Repr

/-- `create_task`, the POST /task handler (lines 325-381), for a request body
`{"discord_id": discord_id, "message": rawMessage}` (each already defaulted to
`""` when absent, as `data.get` does). -/
def create_task (env : Env) (discord_id rawMessage : String) :
    Except HttpError TaskResponse :=
  if discord_id ∈ env.authorizedIds then
    let message := pyStrip rawMessage
    if message = "" then Except.error ⟨400, "message is required"⟩
    else if is_greeting message then
      Except.ok { ok := true, action := some "chat", reply := some CAPABILITIES_TEXT }
    else
      match match_intent message with
      | none =>
        let llm_reply :=
          match query_llm_chat env message with
          | Except.ok r => r
          | Except.error _ => APOLOGY
        Except.ok { ok := true, action := some "chat", reply := some llm_reply }
      | some action =>
        let params := extract_params env action message
        match send_to_android env.android ⟨action, params⟩ with
        | Except.error e => Except.error ⟨502, "Android unreachable: " ++ e⟩
        | Except.ok resp =>
          Except.ok { ok := true, action := some action, params := some params,
                      android_response := some resp }
  else Except.error ⟨401, "Unauthorized"⟩

/-- `raw_command`, the POST /command handler (lines 384-407), for a request
body `{"discord_id": ..., "action": ..., "params": ...}`; `action` is `none`
when the key is absent (Python `data.get("action")`), and an absent or empty
action is rejected by the falsy check on line 399. -/
def raw_command (env : Env) (discord_id : String) (action : Option String)
    (params : ParamMap) : Except HttpError TaskResponse :=
  if discord_id ∈ env.authorizedIds then
    match action with
    | none => Except.error ⟨400, "action is required"⟩
    | some a =>
      if a = "" then Except.error ⟨400, "action is required"⟩
      else
        match send_to_android env.android ⟨a, params⟩ with
        | Except.error e => Except.error ⟨502, "Android unreachable: " ++ e⟩
        | Except.ok resp =>
          Except.ok { ok := true, android_response := some resp }
  else Except.error ⟨401, "Unauthorized"⟩

/-! ## Helper definitions and lemmas -/

/-- Does the pattern of rule `k` of `INTENT_PATTERNS` match the text?
(`false` out of range). -/
def ruleMatches (k : Nat) (text : String) : Bool :=
  match INTENT_PATTERNS[k]? with
  | some r => r.1 text
  | none => false

/-- Substring test on character lists (used to state that an error text does
not mention a given failure reason). -/
def listContains (needle hay : List Char) : Bool :=
  (List.range (hay.length + 1)).any fun i => needle.isPrefixOf (hay.drop i)

lemma ruleMatches_eq_get (k : Nat) (hk : k < INTENT_PATTERNS.length) (text : String) :
    ruleMatches k text = (INTENT_PATTERNS.get ⟨k, hk⟩).1 text := by
  simp [ruleMatches, List.getElem?_eq_getElem hk]

lemma find?_eq_none_iff_idx {α : Type} (p : α → Bool) (l : List α) :
    l.find? p = none ↔ ∀ k, (hk : k < l.length) → p (l.get ⟨k, hk⟩) = false := by
  rw [List.find?_eq_none]
  constructor
  · intro h k hk
    have := h (l.get ⟨k, hk⟩) (l.get_mem _ _)
    simpa using this
  · intro h x hx
    obtain ⟨n, rfl⟩ := List.mem_iff_get.mp hx
    have := h n.1 n.2
    simpa using this

lemma find?_first {α : Type} (p : α → Bool) :
    ∀ (l : List α) (i : Nat) (hi : i < l.length), p (l.get ⟨i, hi⟩) = true →
      ∃ k, k ≤ i ∧ ∃ hk : k < l.length, p (l.get ⟨k, hk⟩) = true ∧
        l.find? p = some (l.get ⟨k, hk⟩)
  | [], i, hi, _ => absurd hi (Nat.not_lt_zero i)
  | a :: t, i, hi, hp => by
    cases ha : p a with
    | true =>
      exact ⟨0, Nat.zero_le i, Nat.succ_pos _, ha, by simp [List.find?_cons_of_pos _ ha]⟩
    | false =>
      match i with
      | 0 => simp only [List.get] at hp; rw [hp] at ha; cases ha
      | i + 1 =>
        have hi' : i < t.length := Nat.lt_of_succ_lt_succ hi
        have hp' : p (t.get ⟨i, hi'⟩) = true := hp
        obtain ⟨k, hk_le, hk, hpk, hfind⟩ := find?_first p t i hi' hp'
        have hcons : List.find? p (a :: t) = List.find? p t :=
          List.find?_cons_of_neg _ (by simp [ha])
        exact ⟨k + 1, Nat.succ_le_succ hk_le, Nat.succ_lt_succ hk, hpk,
          by rw [hcons]; simpa using hfind⟩

lemma tryUrls_agree (env env2 : AndroidEnv) (payload : Payload)
    (h : ∀ u, env2.attempt ANDROID_CLIENT_TIMEOUT u payload
            = env.attempt ANDROID_CLIENT_TIMEOUT u payload) :
    ∀ (l : List (String × String)) (last : Option String),
      tryUrls env2 payload l last = tryUrls env payload l last
  | [], _ => rfl
  | (mode, url) :: rest, last => by
    simp only [tryUrls, h url]
    cases env.attempt ANDROID_CLIENT_TIMEOUT url payload with
    | ok d => rfl
    | error e => exact tryUrls_agree env env2 payload h rest _

/-! ## Claim theorems -/

/-- C1: for every message whose stripped text starts (after optional leading
whitespace) with a greeting/help token, `create_task` of an authorized
identity returns `{ok: true, action: "chat", reply: CAPABILITIES_TEXT}` — and
hence never any concrete device action — regardless of the intent rules, the
completion service and the device endpoint. -/
theorem C1_greeting_precedence (env : Env) (discord_id rawMessage : String)
    (hauth : discord_id ∈ env.authorizedIds)
    (hg : is_greeting (pyStrip rawMessage) = true) :
    create_task env discord_id rawMessage =
      Except.ok { ok := true, action := some "chat", reply := some CAPABILITIES_TEXT } := by
  have hne : ¬(pyStrip rawMessage = "") := by
    intro h
    rw [h] at hg
    exact absurd hg (by decide)
  simp only [create_task, if_pos hauth, if_neg hne, if_pos hg]

/-- Witness for C1 at the spec's own example: `"hi, can you play some music"`
is a greeting and also matches the play_spotify rule, yet the orchestrator
returns the capability text. -/
def envW : Env :=
  { authorizedIds := ["42"],
    llama := fun _ => Except.error (),
    jsonLoads := fun _ => none,
    android := ⟨"http://l", "http://r", fun _ _ _ => Except.error "down"⟩ }

theorem C1_witness :
    ("42" ∈ envW.authorizedIds
      ∧ is_greeting (pyStrip "hi, can you play some music") = true
      ∧ match_intent "hi, can you play some music" = some "play_spotify")
    ∧ create_task envW "42" "hi, can you play some music" =
        Except.ok { ok := true, action := some "chat", reply := some CAPABILITIES_TEXT } :=
  ⟨⟨by simp [envW], by decide, by decide⟩,
    C1_greeting_precedence envW "42" _ (by simp [envW]) (by decide)⟩

/-- C2: intent classification is deterministic first-match-wins over the
ordered rule list: `match_intent` is `none` exactly when no rule matches, and
whenever two rules both match, the result is the action of a rule no later
than the earlier of the two. -/
theorem C2_first_match_wins (text : String) :
    (match_intent text = none ↔
      ∀ k, k < INTENT_PATTERNS.length → ruleMatches k text = false)
    ∧ (∀ i j, i < j → j < INTENT_PATTERNS.length →
        ruleMatches i text = true → ruleMatches j text = true →
        ∃ k, k ≤ i ∧ ruleMatches k text = true ∧
          ∃ hk : k < INTENT_PATTERNS.length,
            match_intent text = some ((INTENT_PATTERNS.get ⟨k, hk⟩).2)) := by
  constructor
  · rw [match_intent, Option.map_eq_none', find?_eq_none_iff_idx]
    constructor
    · intro h k hk
      rw [ruleMatches_eq_get k hk]
      exact h k hk
    · intro h k hk
      rw [← ruleMatches_eq_get k hk]
      exact h k (by omega)
  · intro i j hij hj hi _
    have hi_len : i < INTENT_PATTERNS.length := by omega
    rw [ruleMatches_eq_get i hi_len] at hi
    obtain ⟨k, hk_le, hk, hpk, hfind⟩ :=
      find?_first (fun r => r.1 text) INTENT_PATTERNS i hi_len hi
    refine ⟨k, hk_le, ?_, hk, ?_⟩
    · rw [ruleMatches_eq_get k hk]; exact hpk
    · rw [match_intent, hfind]; rfl

/-- Witness for C2: `"remind me to check my email"` matches both rule 2
(add_calendar_reminder) and rule 5 (send_email); the earlier rule's action is
returned. -/
theorem C2_witness :
    ruleMatches 2 "remind me to check my email" = true
    ∧ ruleMatches 5 "remind me to check my email" = true
    ∧ (∃ k, k ≤ 2 ∧ ruleMatches k "remind me to check my email" = true
        ∧ ∃ hk : k < INTENT_PATTERNS.length,
          match_intent "remind me to check my email" =
            some ((INTENT_PATTERNS.get ⟨k, hk⟩).2))
    ∧ match_intent "remind me to check my email" = some "add_calendar_reminder" :=
  ⟨by decide, by decide,
    (C2_first_match_wins "remind me to check my email").2 2 5 (by decide) (by decide)
      (by decide) (by decide),
    by decide⟩

/-- C3: the parameter extractor is total and returns an empty mapping on every
failure path: immediately when the action has no extraction template, when the
completion-service call fails in transport, and when the fence-stripped
completion output does not parse as JSON. -/
theorem C3_extract_never_raises (env : Env) (action message : String) :
    (promptTemplateFor action = none → extract_params env action message = [])
    ∧ ∀ tmpl, promptTemplateFor action = some tmpl →
        (env.llama (extractRequest (extractPrompt tmpl message)) = Except.error () →
          extract_params env action message = [])
        ∧ ∀ p, env.llama (extractRequest (extractPrompt tmpl message)) = Except.ok p →
            env.jsonLoads (fenceStripped (completionRaw p)) = none →
            extract_params env action message = [] := by
  refine ⟨fun h => ?_, fun tmpl htmpl => ⟨fun h => ?_, fun p hp hparse => ?_⟩⟩
  · simp [extract_params, h]
  · simp [extract_params, htmpl, h]
  · simp [extract_params, htmpl, hp, hparse]

/-- Witness for C3: the parameterless action, the transport-failure path and
the parse-failure path all yield the empty mapping on concrete inputs. -/
theorem C3_witness :
    promptTemplateFor "get_notifications" = none
    ∧ extract_params envW "get_notifications" "anything new" = []
    ∧ extract_params envW "set_alarm" "wake me at 7am" = [] :=
  ⟨rfl,
    (C3_extract_never_raises envW "get_notifications" "anything new").1 rfl,
    ((C3_extract_never_raises envW "set_alarm" "wake me at 7am").2 _ rfl).1 rfl⟩

/-- C4 (amended): the core tolerates the `content` and `response` response
shapes — a non-empty `content` string, or a non-empty `response` string when
`content` is absent or empty, becomes the raw (whitespace-stripped) completion
output of both pipelines — but the `choices[0].text` shape is never read. -/
theorem C4_content_or_response (p : CompletionPayload) (s : String) (hs : s ≠ "") :
    (p.content = some s → completionRaw p = pyStrip s)
    ∧ ((p.content = none ∨ p.content = some "") → p.response = some s →
        completionRaw p = pyStrip s)
    ∧ ∀ env message, env.llama (chatRequest message) = Except.ok p →
        query_llm_chat env message = Except.ok (strip_emojis (completionRaw p)) := by
  refine ⟨fun h => ?_, fun h hr => ?_, fun env message h => ?_⟩
  · simp [completionRaw, pyOrStr, h, hs]
  · rcases h with h | h <;> simp [completionRaw, pyOrStr, h, hr, hs]
  · simp [query_llm_chat, h]

/-- Witness for C4 (amended): concrete payloads carrying the text in
`content` and in `response`. -/
theorem C4_witness :
    completionRaw ⟨some "Hey there", none, []⟩ = pyStrip "Hey there"
    ∧ completionRaw ⟨none, some "Yo", []⟩ = pyStrip "Yo" :=
  ⟨(C4_content_or_response ⟨some "Hey there", none, []⟩ "Hey there" (by decide)).1 rfl,
    (C4_content_or_response ⟨none, some "Yo", []⟩ "Yo" (by decide)).2.1 (Or.inl rfl) rfl⟩

/-- A completion response carrying its generated text only in
`choices[0].text`, as the third documented upstream shape. -/
def choicesPayload : CompletionPayload :=
  ⟨none, none, [⟨some "HELLO"⟩]⟩

/-- An environment whose completion service always answers with
`choicesPayload` and whose JSON parser would accept exactly the text
`"HELLO"` carried there. -/
def envChoices : Env :=
  { authorizedIds := ["42"],
    llama := fun _ => Except.ok choicesPayload,
    jsonLoads := fun str =>
      if str = "HELLO" then some [("time", JsonVal.str "7:00 AM")] else none,
    android := ⟨"http://l", "http://r", fun _ _ _ => Except.error "down"⟩ }

/-- C4 counterexample: for a response carrying its text only in
`choices[0].text`, neither the conversational fallback nor the parameter
extractor uses that text — the raw output degrades to `""`, and the extractor
misses the parameters its parser would have found in `"HELLO"`. -/
theorem C4_choices_ignored :
    choicesPayload.choices = [⟨some "HELLO"⟩]
    ∧ query_llm_chat envChoices "ping" = Except.ok ""
    ∧ extract_params envChoices "set_alarm" "ping" = []
    ∧ envChoices.jsonLoads "HELLO" = some [("time", JsonVal.str "7:00 AM")]
    ∧ ("" : String) ≠ "HELLO" :=
  ⟨rfl, rfl, rfl, rfl, by decide⟩

/-- An Android environment in which both candidate endpoints are configured
and both fail, with distinct failure reasons. -/
def bothFailEnv : AndroidEnv :=
  ⟨"http://l", "http://r",
    fun _ u _ =>
      if u = "http://l/command" then Except.error "boom-one"
      else Except.error "boom-two"⟩

/-- C5 (amended): when every candidate endpoint fails, the forwarder fails
with an error that carries only the last attempted candidate and its failure
reason — earlier failures are overwritten, not accumulated. -/
theorem C5_error_carries_last (env : AndroidEnv) (cmd : Command) (eL eR : String)
    (hl : ¬(pyStrip env.localUrl = ""))
    (hr : ¬(pyStrip env.remoteUrl = ""))
    (hne : ¬(pyStrip env.remoteUrl = pyStrip env.localUrl))
    (h1 : env.attempt ANDROID_CLIENT_TIMEOUT (build_command_url env.localUrl)
            (androidPayload cmd) = Except.error eL)
    (h2 : env.attempt ANDROID_CLIENT_TIMEOUT (build_command_url env.remoteUrl)
            (androidPayload cmd) = Except.error eR) :
    send_to_android env cmd =
      Except.error ("remote:" ++ build_command_url env.remoteUrl ++ " -> " ++ eR) := by
  simp [send_to_android, candidateUrls, if_neg hl, if_neg hr, if_neg hne, tryUrls, h1, h2]

/-- Witness for C5 (amended): with both concrete candidates failing, the
produced error is the formatted last failure. -/
theorem C5_witness :
    send_to_android bothFailEnv ⟨"add_note", [("content", JsonVal.str "buy milk")]⟩ =
      Except.error ("remote:" ++ build_command_url "http://r" ++ " -> " ++ "boom-two") :=
  C5_error_carries_last bothFailEnv ⟨"add_note", [("content", JsonVal.str "buy milk")]⟩
    "boom-one" "boom-two" (by decide) (by decide) (by decide) rfl rfl

/-- C5 counterexample: with two failing candidates, the error produced by the
forwarder does not list both failure reasons — the first reason
(`"boom-one"`) appears nowhere in it. -/
theorem C5_first_reason_lost :
    send_to_android bothFailEnv ⟨"set_alarm", []⟩ =
      Except.error "remote:http://r/command -> boom-two"
    ∧ listContains "boom-one".toList
        "remote:http://r/command -> boom-two".toList = false :=
  ⟨rfl, by decide⟩

/-- An Android environment that reports, in the successful response body, the
timeout its (first) attempt was issued with. -/
def echoOkEnv : AndroidEnv :=
  ⟨"http://l", "http://r", fun t _ _ => Except.ok [("timeout", JsonVal.num t)]⟩

/-- An Android environment that reports, in each failure reason, whether the
attempt was issued with timeout 20. -/
def echoErrEnv : AndroidEnv :=
  ⟨"http://l", "http://r",
    fun t _ _ => Except.error (if t = 20 then "twenty" else "other")⟩

/-- C6 (amended): every candidate attempt of the forwarder is issued with the
same timeout bound, the shared client timeout of 20 — two environments whose
attempt functions agree at that single timeout are indistinguishable. -/
theorem C6_timeout_uniform (env env2 : AndroidEnv) (cmd : Command)
    (h1 : env2.localUrl = env.localUrl) (h2 : env2.remoteUrl = env.remoteUrl)
    (h3 : ∀ u p, env2.attempt ANDROID_CLIENT_TIMEOUT u p
              = env.attempt ANDROID_CLIENT_TIMEOUT u p) :
    send_to_android env2 cmd = send_to_android env cmd := by
  rw [send_to_android, send_to_android, candidateUrls, candidateUrls, h1, h2]
  exact tryUrls_agree env env2 (androidPayload cmd) (fun u => h3 u _) _ _

/-- Witness for C6 (amended): an environment that would behave differently at
any other timeout forwards identically, since only timeout 20 is ever used. -/
def offTimeoutEnv : AndroidEnv :=
  ⟨"http://l", "http://r",
    fun t u p => if t = 20 then echoOkEnv.attempt t u p else Except.error "never"⟩

theorem C6_witness :
    send_to_android offTimeoutEnv ⟨"set_alarm", []⟩ =
      send_to_android echoOkEnv ⟨"set_alarm", []⟩
    ∧ send_to_android echoOkEnv ⟨"set_alarm", []⟩ =
        Except.ok [("timeout", JsonVal.num 20),
          ("_forwarded_via", JsonVal.str "local"),
          ("_forwarded_url", JsonVal.str "http://l/command")] :=
  ⟨C6_timeout_uniform echoOkEnv offTimeoutEnv ⟨"set_alarm", []⟩ rfl rfl
      (fun _ _ => rfl), rfl⟩

/-- C6 counterexample: the first candidate's attempt is issued with timeout
20 (echoed in the success body) and the second candidate's attempt is also
issued with timeout 20 (echoed in the failure reason) — the first timeout is
not strictly smaller than the second. -/
theorem C6_same_timeout :
    send_to_android echoOkEnv ⟨"set_alarm", []⟩ =
      Except.ok [("timeout", JsonVal.num 20),
        ("_forwarded_via", JsonVal.str "local"),
        ("_forwarded_url", JsonVal.str "http://l/command")]
    ∧ send_to_android echoErrEnv ⟨"set_alarm", []⟩ =
        Except.error "remote:http://r/command -> twenty"
    ∧ ¬(ANDROID_CLIENT_TIMEOUT < ANDROID_CLIENT_TIMEOUT) :=
  ⟨rfl, rfl, by decide⟩

/-- C7: for a non-empty non-greeting message of an authorized identity that
matches no intent rule, a failing completion service yields
`{ok: true, action: "chat", reply: APOLOGY}` rather than an error, and a
successful one yields the emoji-stripped model reply. -/
theorem C7_fallback_swallows_failure (env : Env) (discord_id rawMessage : String)
    (hauth : discord_id ∈ env.authorizedIds)
    (hne : ¬(pyStrip rawMessage = ""))
    (hg : is_greeting (pyStrip rawMessage) = false)
    (hm : match_intent (pyStrip rawMessage) = none) :
    (env.llama (chatRequest (pyStrip rawMessage)) = Except.error () →
      create_task env discord_id rawMessage =
        Except.ok { ok := true, action := some "chat", reply := some APOLOGY })
    ∧ ∀ p, env.llama (chatRequest (pyStrip rawMessage)) = Except.ok p →
        create_task env discord_id rawMessage =
          Except.ok { ok := true, action := some "chat",
                      reply := some (strip_emojis (completionRaw p)) } := by
  constructor
  · intro h
    simp [create_task, if_pos hauth, if_neg hne, hg, hm, query_llm_chat, h]
  · intro p h
    simp [create_task, if_pos hauth, if_neg hne, hg, hm, query_llm_chat, h]

/-- Witness for C7: `"zzz qqq"` matches no rule and is no greeting; with the
completion service down (`envW`), the orchestrator still replies with the
static apology. -/
theorem C7_witness :
    is_greeting (pyStrip "zzz qqq") = false
    ∧ match_intent (pyStrip "zzz qqq") = none
    ∧ create_task envW "42" "zzz qqq" =
        Except.ok { ok := true, action := some "chat", reply := some APOLOGY } :=
  ⟨by decide, by decide,
    (C7_fallback_swallows_failure envW "42" "zzz qqq" (by simp [envW]) (by decide)
      (by decide) (by decide)).1 rfl⟩

/-- C8: the action-rename table is applied exactly once and only to the
action field: the payload forwarded to every candidate is exactly
`androidPayload cmd`, whose action is the alias-table image of the command's
action (the action itself without an alias entry) and whose params are the
command's params unchanged — attempt oracles agreeing on that one payload
make the forwarder behave identically. -/
theorem C8_alias_once_params_unchanged (env env2 : AndroidEnv) (cmd : Command)
    (h1 : env2.localUrl = env.localUrl) (h2 : env2.remoteUrl = env.remoteUrl)
    (h3 : ∀ u, env2.attempt ANDROID_CLIENT_TIMEOUT u (androidPayload cmd)
            = env.attempt ANDROID_CLIENT_TIMEOUT u (androidPayload cmd)) :
    send_to_android env2 cmd = send_to_android env cmd
    ∧ (androidPayload cmd).action = pyDictGetD action_aliases cmd.action cmd.action
    ∧ (androidPayload cmd).params = cmd.params := by
  refine ⟨?_, rfl, rfl⟩
  rw [send_to_android, send_to_android, candidateUrls, candidateUrls, h1, h2]
  exact tryUrls_agree env env2 (androidPayload cmd) h3 _ _

/-- Witness for C8 at the spec's own example: action `add_note` with params
`{content: "buy milk"}` is forwarded as `create_note` with identical params,
and an action without an alias entry passes through unchanged. -/
theorem C8_witness :
    (androidPayload ⟨"add_note", [("content", JsonVal.str "buy milk")]⟩).action
      = "create_note"
    ∧ (androidPayload ⟨"add_note", [("content", JsonVal.str "buy milk")]⟩).params
        = [("content", JsonVal.str "buy milk")]
    ∧ (androidPayload ⟨"set_alarm", [("time", JsonVal.str "7:00 AM")]⟩).action
        = "set_alarm" := by
  have hA := C8_alias_once_params_unchanged echoOkEnv echoOkEnv
    ⟨"add_note", [("content", JsonVal.str "buy milk")]⟩ rfl rfl (fun _ => rfl)
  have hB := C8_alias_once_params_unchanged echoOkEnv echoOkEnv
    ⟨"set_alarm", [("time", JsonVal.str "7:00 AM")]⟩ rfl rfl (fun _ => rfl)
  exact ⟨hA.2.1.trans rfl, hA.2.2, hB.2.1.trans rfl⟩

/-- C9: a request whose identity is not in the allow-list fails with the 401
Unauthorized signal on both entry points, for every state of the intent
rules, the completion service and the device endpoint — so no downstream
component can influence (or be reached by) the handling of an unauthorized
request. -/
theorem C9_unauthorized_short_circuit (env : Env) (discord_id rawMessage : String)
    (action : Option String) (params : ParamMap)
    (h : discord_id ∉ env.authorizedIds) :
    create_task env discord_id rawMessage = Except.error ⟨401, "Unauthorized"⟩
    ∧ raw_command env discord_id action params = Except.error ⟨401, "Unauthorized"⟩ := by
  constructor
  · simp [create_task, h]
  · simp [raw_command, h]

/-- Witness for C9: identity `"7"` is not in the allow-list `["42"]`; both
entry points answer 401. -/
theorem C9_witness :
    ("7" ∉ envW.authorizedIds)
    ∧ create_task envW "7" "set an alarm for 7am" = Except.error ⟨401, "Unauthorized"⟩
    ∧ raw_command envW "7" (some "set_alarm") [] = Except.error ⟨401, "Unauthorized"⟩ := by
  have h7 : ("7" : String) ∉ envW.authorizedIds := by decide
  have h := C9_unauthorized_short_circuit envW "7" "set an alarm for 7am"
    (some "set_alarm") [] h7
  exact ⟨h7, h.1, h.2⟩

/-- C10: every JSON body actually returned (rather than raised) by the /task
and /command handlers has `ok = true`; all failure paths are raised HTTP
error signals, never an `ok: false` body. -/
theorem C10_ok_never_false (env : Env) (discord_id rawMessage : String)
    (action : Option String) (params : ParamMap) (r : TaskResponse)
    (h : create_task env discord_id rawMessage = Except.ok r
        ∨ raw_command env discord_id action params = Except.ok r) :
    r.ok = true := by
  rcases h with h | h
  · simp only [create_task] at h
    repeat' split at h
    all_goals (cases h)
    all_goals rfl
  · simp only [raw_command] at h
    repeat' split at h
    all_goals (cases h)
    all_goals rfl

/-- Witness for C10: a concretely returned body (the greeting reply) has
`ok = true`. -/
theorem C10_witness :
    ({ ok := true, action := some "chat", reply := some CAPABILITIES_TEXT }
      : TaskResponse).ok = true :=
  C10_ok_never_false envW "42" "hi" none [] _ (Or.inl rfl)

end PA
